import Mathlib

/-!
Shallow embedding of the auth core of the webide repository.

The backend utilities are embedded from the TypeScript shown in
docs/08_SECURITY.md (backend/src/utils/jwt.ts and the bcrypt helpers);
the frontend is embedded from frontend/src/services/api.ts,
frontend/src/services/auth.ts, frontend/src/context/AuthContext.tsx and
the page components. Cryptographic primitives (HMAC signatures, bcrypt)
are modelled symbolically: a signature carries the secret that produced
it and verifies exactly under that secret, and a bcrypt digest is a
constructor application of the salted input, so that equal digests come
from equal inputs. Machine-level collision behaviour is out of scope.
-/

namespace WebIDE

/-- Decoded JWT payload as produced by jwt.sign in generateAccessToken and
generateRefreshToken (docs/08_SECURITY.md). Claims that a given generator
does not set are carried as `none`; `iat` and `exp` are the values jwt.sign
derives from the current time and the expiresIn option. -/
structure JwtPayload where
  sub : String
  email : Option String
  username : Option String
  type : String
  iat : Nat
  exp : Nat
deriving DecidableEq

/-- A presented token string. A well-formed token is a payload together with
the secret whose HMAC-SHA256 signature it carries (symbolic model: the
signature verifies exactly under the signing secret); anything else is a
malformed string carrying no payload. -/
inductive JwtToken where
  | signed (payload : JwtPayload) (secret : String)
  | malformed (raw : String)
deriving DecidableEq

/-- Failure reasons distinguished by the underlying jsonwebtoken library
(JsonWebTokenError for a bad signature or malformed token,
TokenExpiredError for an expired claim). -/
inductive JwtVerifyError where
  | badSignature
  | expired
  | malformedToken
deriving DecidableEq

/-- Server configuration (backend/src/config): the two signing secrets. -/
structure Config where
  JWT_SECRET : String
  JWT_REFRESH_SECRET : String
deriving DecidableEq

/-- Numeric value of one digit character. -/
def charDigit? (c : Char) : Option Nat :=
  if c.isDigit then some (c.toNat - 48) else none

/-- Parse a non-empty run of decimal digits. -/
def parseNatDigits (cs : List Char) : Option Nat :=
  if cs.isEmpty then none
  else cs.foldl (fun acc c =>
    match acc, charDigit? c with
    | some n, some d => some (n * 10 + d)
    | _, _ => none) (some 0)

/-- Seconds denoted by a jsonwebtoken expiresIn string such as "24h" or
"30d": a decimal count followed by a unit letter. -/
def expiresInSeconds (s : String) : Nat :=
  match s.toList.reverse with
  | [] => 0
  | unit :: rest =>
    let digits := rest.reverse
    match unit with
    | 'h' => (parseNatDigits digits).getD 0 * 3600
    | 'd' => (parseNatDigits digits).getD 0 * 86400
    | 'm' => (parseNatDigits digits).getD 0 * 60
    | 's' => (parseNatDigits digits).getD 0
    | _ => (parseNatDigits s.toList).getD 0

/-- The expiresIn option passed to jwt.sign by generateAccessToken. -/
def accessTokenExpiresIn : String := "24h"

/-- The expiresIn option passed to jwt.sign by generateRefreshToken. -/
def refreshTokenExpiresIn : String := "30d"

/-- generateAccessToken from docs/08_SECURITY.md: signs a payload with the
claims sub, email and type "access" under config.JWT_SECRET; jwt.sign adds
iat (the current time) and exp (iat plus the "24h" expiresIn). No username
claim is set. -/
def generateAccessToken (cfg : Config) (userId email : String) (now : Nat) : JwtToken :=
  JwtToken.signed
    { sub := userId
      email := some email
      username := none
      type := "access"
      iat := now
      exp := now + expiresInSeconds accessTokenExpiresIn }
    cfg.JWT_SECRET

/-- generateRefreshToken from docs/08_SECURITY.md: signs a payload with the
claims sub and type "refresh" under config.JWT_REFRESH_SECRET, with a
"30d" expiresIn. -/
def generateRefreshToken (cfg : Config) (userId : String) (now : Nat) : JwtToken :=
  JwtToken.signed
    { sub := userId
      email := none
      username := none
      type := "refresh"
      iat := now
      exp := now + expiresInSeconds refreshTokenExpiresIn }
    cfg.JWT_REFRESH_SECRET

/-- jwt.verify of the jsonwebtoken library: checks the signature against the
given secret, then the exp claim against the current time; its errors
distinguish the failure reason. -/
def jwtVerify (secret : String) (tok : JwtToken) (now : Nat) :
    Except JwtVerifyError JwtPayload :=
  match tok with
  | JwtToken.malformed _ => Except.error JwtVerifyError.malformedToken
  | JwtToken.signed p s =>
    if s = secret then
      if p.exp ≤ now then Except.error JwtVerifyError.expired
      else Except.ok p
    else Except.error JwtVerifyError.badSignature

/-- verifyToken from docs/08_SECURITY.md: jwt.verify under config.JWT_SECRET,
with every library failure collapsed into the single error value
"Invalid token". -/
def verifyToken (cfg : Config) (tok : JwtToken) (now : Nat) :
    Except String JwtPayload :=
  match jwtVerify cfg.JWT_SECRET tok now with
  | Except.ok p => Except.ok p
  | Except.error _ => Except.error "Invalid token"

/-- The payload carried by a token, when it is well formed. -/
def tokenPayload : JwtToken → Option JwtPayload
  | JwtToken.signed p _ => some p
  | JwtToken.malformed _ => none

/-- A bcrypt hash string, modelled symbolically: the cost factor and salt it
records, and the salted one-way digest of the hashed password. The digest
is a constructor application, so equal digests come from equal
salt-password pairs; the raw password cannot be read back through the
bcrypt interface below. -/
structure BcryptHash where
  cost : Nat
  salt : Nat
  digest : Nat × String
deriving DecidableEq

/-- bcrypt.hash: derive the salted digest of the password at the given cost,
with the salt drawn from the internal randomness of bcrypt. -/
def bcryptHashWith (password : String) (cost salt : Nat) : BcryptHash :=
  { cost := cost, salt := salt, digest := (salt, password) }

/-- bcrypt.compare: recompute the digest of the candidate password under the
cost and salt recorded in the stored hash and compare. -/
def bcryptCompare (password : String) (h : BcryptHash) : Bool :=
  decide (bcryptHashWith password h.cost h.salt = h)

/-- hashPassword from docs/08_SECURITY.md: bcrypt.hash with saltRounds 12. -/
def hashPassword (password : String) (salt : Nat) : BcryptHash :=
  bcryptHashWith password 12 salt

/-- verifyPassword from docs/08_SECURITY.md: bcrypt.compare. -/
def verifyPassword (password : String) (h : BcryptHash) : Bool :=
  bcryptCompare password h

example : expiresInSeconds accessTokenExpiresIn = 86400 := by decide
example : expiresInSeconds refreshTokenExpiresIn = 2592000 := by decide
example : verifyPassword "pw" (hashPassword "pw" 3) = true := by decide
example : verifyPassword "pw2" (hashPassword "pw" 3) = false := by decide

/-! Frontend embedding: frontend/src/services/api.ts,
frontend/src/services/auth.ts, frontend/src/context/AuthContext.tsx and the
page components. Server behaviour is not part of the frontend sources, so
each step takes the outcome of its awaited API call as an argument. -/

/-- The AuthUser interface of frontend/src/services/auth.ts: id, email and
an optional name. -/
structure AuthUser where
  id : String
  email : String
  name : Option String
deriving DecidableEq

/-- A JSON value, as far as the persisted auth state needs: strings, nulls
and objects given by ordered field lists. -/
inductive JsonVal where
  | str (s : String)
  | null
  | obj (fields : List (String × JsonVal))

/-- JSON.stringify image of an AuthUser. -/
def authUserJson (u : AuthUser) : JsonVal :=
  JsonVal.obj ([("id", JsonVal.str u.id), ("email", JsonVal.str u.email)] ++
    (match u.name with
     | some n => [("name", JsonVal.str n)]
     | none => []))

/-- The value persistAuth writes: JSON.stringify of an object holding
exactly the fields user and accessToken. -/
def persistAuthValue (user : Option AuthUser) (accessToken : Option String) : JsonVal :=
  JsonVal.obj
    [("user", match user with
              | some u => authUserJson u
              | none => JsonVal.null),
     ("accessToken", match accessToken with
                     | some t => JsonVal.str t
                     | none => JsonVal.null)]

/-- localStorage: a list of key-value entries, most recent first. -/
abbrev LocalStorage := List (String × JsonVal)

/-- The single storage key both api.ts and AuthContext.tsx use. -/
def AUTH_STORAGE_KEY : String := "webide.auth"

/-- localStorage.getItem. -/
def lsGet : LocalStorage → String → Option JsonVal
  | [], _ => none
  | (k, v) :: rest, key => if k = key then some v else lsGet rest key

/-- localStorage.removeItem. -/
def lsRemove : LocalStorage → String → LocalStorage
  | [], _ => []
  | (k, v) :: rest, key =>
    if k = key then lsRemove rest key else (k, v) :: lsRemove rest key

/-- localStorage.setItem. -/
def lsSet (st : LocalStorage) (key : String) (v : JsonVal) : LocalStorage :=
  (key, v) :: lsRemove st key

/-- An axios error as the frontend can observe it: the HTTP status of the
failed response. -/
structure ApiError where
  status : Nat
deriving DecidableEq

/-- The AuthResponse interface of services/auth.ts: what a successful login
resolves to. The refreshToken and expiresIn fields are optional. -/
structure AuthResponse where
  user : AuthUser
  accessToken : String
  refreshToken : Option String
  expiresIn : Option Nat
deriving DecidableEq

/-- What a successful authService.verify resolves to. -/
structure VerifyResponse where
  valid : Bool
  user : Option AuthUser
deriving DecidableEq

/-- The state AuthContext.tsx manages: the user and accessToken React state,
the isLoading flag, and the browser localStorage it reads and writes. -/
structure AuthState where
  user : Option AuthUser
  accessToken : Option String
  isLoading : Bool
  storage : LocalStorage

/-- persistAuth from AuthContext.tsx: localStorage.setItem of the
JSON.stringify image of a user-accessToken pair under AUTH_STORAGE_KEY. -/
def persistAuthStep (s : AuthState) (user : Option AuthUser)
    (accessToken : Option String) : AuthState :=
  { s with storage := lsSet s.storage AUTH_STORAGE_KEY (persistAuthValue user accessToken) }

/-- login from AuthContext.tsx: on success, set user and accessToken from
the response and persist them (the refreshToken field of the response is
never used); on failure the awaited call throws and only the finally block
runs, so user, accessToken and storage are unchanged. -/
def loginStep (s : AuthState) (result : Except ApiError AuthResponse) : AuthState :=
  match result with
  | Except.ok d =>
    let s1 := { s with user := some d.user, accessToken := some d.accessToken }
    { persistAuthStep s1 (some d.user) (some d.accessToken) with isLoading := false }
  | Except.error _ => { s with isLoading := false }

/-- register from AuthContext.tsx: authService.register followed, on
success, by the same sequence as login. -/
def registerStep (s : AuthState) (registerResult : Except ApiError AuthUser)
    (loginResult : Except ApiError AuthResponse) : AuthState :=
  match registerResult with
  | Except.error _ => { s with isLoading := false }
  | Except.ok _ => loginStep s loginResult

/-- refreshSession from AuthContext.tsx: no-op without an accessToken;
otherwise authService.verify, and only a valid response carrying a user
updates state and storage. A thrown error leaves everything but isLoading
unchanged (the try block has no catch, only a finally). -/
def refreshSessionStep (s : AuthState) (result : Except ApiError VerifyResponse) :
    AuthState :=
  match s.accessToken with
  | none => s
  | some tok =>
    match result with
    | Except.ok r =>
      match r.valid, r.user with
      | true, some u =>
        { persistAuthStep { s with user := some u } (some u) (some tok) with
            isLoading := false }
      | _, _ => { s with isLoading := false }
    | Except.error _ => { s with isLoading := false }

/-- The finally block of logout in AuthContext.tsx: setUser null,
setAccessToken null, localStorage.removeItem of AUTH_STORAGE_KEY. -/
def clearSession (s : AuthState) : AuthState :=
  { s with user := none
           accessToken := none
           storage := lsRemove s.storage AUTH_STORAGE_KEY
           isLoading := false }

/-- logout from AuthContext.tsx: await authService.logout inside try, with
the session clear in the finally block, so it runs whether the POST
succeeds or throws. -/
def logoutStep (s : AuthState) (result : Except ApiError Unit) : AuthState :=
  match result with
  | Except.ok _ => clearSession s
  | Except.error _ => clearSession s

/-- One frontend auth operation together with the outcome of the API calls
it awaits. -/
inductive AuthOp where
  | login (result : Except ApiError AuthResponse)
  | register (registerResult : Except ApiError AuthUser)
      (loginResult : Except ApiError AuthResponse)
  | refreshSession (result : Except ApiError VerifyResponse)
  | logout (result : Except ApiError Unit)

/-- Run one operation. -/
def runOp (s : AuthState) : AuthOp → AuthState
  | AuthOp.login r => loginStep s r
  | AuthOp.register r1 r2 => registerStep s r1 r2
  | AuthOp.refreshSession r => refreshSessionStep s r
  | AuthOp.logout r => logoutStep s r

/-- Run a sequence of operations. -/
def runOps (s : AuthState) (ops : List AuthOp) : AuthState :=
  ops.foldl runOp s

/-- Top-level field names of a JSON object value. -/
def jsonTopKeys : JsonVal → List String
  | JsonVal.obj fields => fields.map Prod.fst
  | _ => []

/-- Top-level field names of the value stored under AUTH_STORAGE_KEY. -/
def storedTopKeys (st : LocalStorage) : List String :=
  match lsGet st AUTH_STORAGE_KEY with
  | none => []
  | some v => jsonTopKeys v

/-- The entry under AUTH_STORAGE_KEY is absent or is a value persistAuth
wrote: an object of exactly a user field and an accessToken field. -/
def storedAuthOk (st : LocalStorage) : Prop :=
  lsGet st AUTH_STORAGE_KEY = none ∨
  ∃ u t, lsGet st AUTH_STORAGE_KEY = some (persistAuthValue u t)

/-- The request body authService.register posts:
api.post with an object of name, email and password. -/
def registerRequestBody (name email password : String) : List (String × String) :=
  [("name", name), ("email", email), ("password", password)]

/-- The path authService.register posts to. -/
def registerRequestPath : String := "/auth/register"

/-- Field names of the AuthUser interface, the type authService.register
resolves to. -/
def authUserFieldNames : List String := ["id", "email", "name"]

/-- What ProtectedRoute renders. -/
inductive RouteOutcome where
  | loading
  | redirectToLogin
  | renderChildren
deriving DecidableEq

/-- ProtectedRoute from components/ProtectedRoute.tsx: a loading marker
while isLoading, a Navigate to /login when no user is in context, the
children otherwise. -/
def protectedRoute (isLoading : Bool) (user : Option AuthUser) : RouteOutcome :=
  if isLoading then RouteOutcome.loading
  else
    match user with
    | none => RouteOutcome.redirectToLogin
    | some _ => RouteOutcome.renderChildren

/-- LoginPage state: the inline error message plus the auth context. -/
structure LoginPageState where
  errorMsg : Option String
  auth : AuthState

/-- handleSubmit of LoginPage.tsx: clear the inline error, call login; any
thrown error (whatever its status) is caught and shown as an inline
message. -/
def loginPageSubmit (ps : LoginPageState) (result : Except ApiError AuthResponse) :
    LoginPageState :=
  match result with
  | Except.ok d => { errorMsg := none, auth := loginStep ps.auth (Except.ok d) }
  | Except.error e =>
    { errorMsg := some "Unable to sign in. Check your credentials and try again."
      auth := loginStep ps.auth (Except.error e) }

/-! Refresh token store and rotation. The backend store is not part of the
sources (only its frontend caller authService.refresh is), so this part is
modelled from the spec. -/

/-- Modelled from the spec: a one-way hash of a raw refresh token value,
as stored in the hash column of a refresh token record. Modelled as a
constructor application: equal hashes come from equal raw values (the
no-collision invariant of the spec) and the store never holds a value from
which the raw token is read back. -/
inductive TokenHash where
  | hashOf (raw : Nat)
deriving DecidableEq

/-- Modelled from the spec: a persisted refresh token record — id, owning
user, hash of the token value, expiry, optional revocation timestamp
(none means active), creation timestamp. -/
structure RefreshRecord where
  id : Nat
  userId : String
  tokenHash : TokenHash
  expiresAt : Nat
  revokedAt : Option Nat
  createdAt : Nat
deriving DecidableEq

/-- Modelled from the spec: the refresh token store, with counters serving
fresh record ids and fresh cryptographically random raw token values. -/
structure RefreshStore where
  records : List RefreshRecord
  nextId : Nat
  nextRaw : Nat
deriving DecidableEq

/-- Modelled from the spec: a record is usable if and only if it is not
revoked and not expired. -/
def recordActive (r : RefreshRecord) (now : Nat) : Bool :=
  r.revokedAt.isNone && decide (now < r.expiresAt)

/-- Modelled from the spec: findActive returns the active record carrying
the given token hash, if any. -/
def findActive (st : RefreshStore) (h : TokenHash) (now : Nat) : Option RefreshRecord :=
  st.records.find? (fun r => decide (r.tokenHash = h) && recordActive r now)

/-- Modelled from the spec: persist a new refresh token record for a user
and return its record id. -/
def persistRecord (st : RefreshStore) (userId : String) (h : TokenHash)
    (expiresAt now : Nat) : Nat × RefreshStore :=
  (st.nextId,
   { records :=
       { id := st.nextId, userId := userId, tokenHash := h,
         expiresAt := expiresAt, revokedAt := none, createdAt := now } :: st.records
     nextId := st.nextId + 1
     nextRaw := st.nextRaw })

/-- Modelled from the spec: revoke sets the revocation timestamp of the
record with the given id, keeping the row for audit. -/
def revoke (st : RefreshStore) (recordId : Nat) (now : Nat) : RefreshStore :=
  { st with records := st.records.map (fun r =>
      if r.id = recordId then { r with revokedAt := some now } else r) }

/-- Modelled from the spec: issueRefreshToken draws a fresh random raw
value, persists a record holding its hash and an expiry now plus ttl, and
returns the raw value, the record id and the new store. -/
def issueRefreshToken (st : RefreshStore) (userId : String) (now ttl : Nat) :
    Nat × Nat × RefreshStore :=
  let raw := st.nextRaw
  let st1 := { st with nextRaw := st.nextRaw + 1 }
  let (recId, st2) := persistRecord st1 userId (TokenHash.hashOf raw) (now + ttl) now
  (raw, recId, st2)

/-- Modelled from the spec: rotate(oldTokenHash) fails with Unauthorized
when no active record carries the old hash, and otherwise — in one
transactional unit, a single transition of the store with no intermediate
state — revokes the old record and issues and persists a new token bound
to the same user, returning the new raw value and record id. -/
def rotate (st : RefreshStore) (oldHash : TokenHash) (now ttl : Nat) :
    Except String ((Nat × Nat) × RefreshStore) :=
  match findActive st oldHash now with
  | none => Except.error "Unauthorized"
  | some old =>
    let st1 := revoke st old.id now
    let (raw, recId, st2) := issueRefreshToken st1 old.userId now ttl
    Except.ok ((raw, recId), st2)

/-- Every hash in the store comes from a raw value already drawn, so the
raw values the counter serves next are fresh. -/
def RefreshStore.WF (st : RefreshStore) : Prop :=
  ∀ r ∈ st.records, ∀ raw : Nat, r.tokenHash = TokenHash.hashOf raw → raw < st.nextRaw

/-! Shared storage lemmas. -/

/-- Reading a key back right after setItem returns the written value. -/
theorem lsGet_lsSet (st : LocalStorage) (k : String) (v : JsonVal) :
    lsGet (lsSet st k v) k = some v := by
  simp [lsSet, lsGet]

/-- Reading a key right after removeItem returns nothing. -/
theorem lsGet_lsRemove (st : LocalStorage) (k : String) :
    lsGet (lsRemove st k) k = none := by
  induction st with
  | nil => rfl
  | cons kv rest ih =>
    obtain ⟨k1, v1⟩ := kv
    by_cases h : k1 = k
    · simpa [lsRemove, h] using ih
    · simpa [lsRemove, lsGet, h] using ih

/-- The hardcoded TTL of the access token evaluates to 24 hours. -/
theorem accessTokenExpiresIn_seconds : expiresInSeconds accessTokenExpiresIn = 86400 := by
  decide

/-! Claim theorems. -/

/-- C2 counterexample: the access token issued at time 0 for a concrete user
embeds an expiry exactly 86400 seconds (24 hours) after its issued-at time,
which is not on the order of minutes (it is not below one hour). -/
theorem C2_access_ttl_cex :
    (tokenPayload (generateAccessToken ⟨"access-secret", "refresh-secret"⟩
        "user-1" "alice@example.com" 0)).map (fun p => p.exp - p.iat) = some 86400 ∧
    ¬ (86400 : Nat) < 3600 := by
  exact ⟨rfl, by omega⟩

/-- C2 (amended): for every configuration, user and issue time, the expiry
embedded in the access token is the hardcoded, non-configurable 24 hours
(86400 seconds) after the issued-at time. -/
theorem C2_access_ttl_24h (cfg : Config) (uid email : String) (now : Nat) :
    (tokenPayload (generateAccessToken cfg uid email now)).map
      (fun p => (p.iat, p.exp)) = some (now, now + 86400) := by
  simp [tokenPayload, generateAccessToken, accessTokenExpiresIn_seconds]

/-- C4 counterexample: the access token issued for a concrete user carries
no username claim — its payload has username none. -/
theorem C4_access_no_username_cex :
    (tokenPayload (generateAccessToken ⟨"access-secret", "refresh-secret"⟩
        "user-1" "alice@example.com" 0)).map JwtPayload.username = some none := rfl

/-- C4 (amended): every access token embeds subject, email, type "access"
and issued-at (plus the 24-hour expiry), but no username claim. -/
theorem C4_access_claims (cfg : Config) (uid email : String) (now : Nat) :
    tokenPayload (generateAccessToken cfg uid email now) =
      some { sub := uid, email := some email, username := none, type := "access",
             iat := now, exp := now + 86400 } := by
  simp [tokenPayload, generateAccessToken, accessTokenExpiresIn_seconds]

/-- C5: when the two server-held secrets differ, a refresh token never
verifies under the access-token verifier (verifyToken, and jwt.verify with
JWT_SECRET), and an access token never verifies under the refresh secret. -/
theorem C5_secrets_independent (cfg : Config) (uid email : String) (now tv : Nat)
    (h : cfg.JWT_SECRET ≠ cfg.JWT_REFRESH_SECRET) :
    verifyToken cfg (generateRefreshToken cfg uid now) tv =
      Except.error "Invalid token" ∧
    jwtVerify cfg.JWT_SECRET (generateRefreshToken cfg uid now) tv =
      Except.error JwtVerifyError.badSignature ∧
    jwtVerify cfg.JWT_REFRESH_SECRET (generateAccessToken cfg uid email now) tv =
      Except.error JwtVerifyError.badSignature := by
  have h1 : cfg.JWT_REFRESH_SECRET ≠ cfg.JWT_SECRET := fun hh => h hh.symm
  refine ⟨?_, ?_, ?_⟩ <;>
    simp [verifyToken, jwtVerify, generateRefreshToken, generateAccessToken, h, h1]

/-- C5 witness at a concrete configuration with distinct secrets. -/
theorem C5_secrets_independent_witness :
    (Config.mk "access-secret" "refresh-secret").JWT_SECRET ≠
      (Config.mk "access-secret" "refresh-secret").JWT_REFRESH_SECRET ∧
    (verifyToken ⟨"access-secret", "refresh-secret"⟩
        (generateRefreshToken ⟨"access-secret", "refresh-secret"⟩ "u1" 0) 5 =
      Except.error "Invalid token" ∧
    jwtVerify "access-secret"
        (generateRefreshToken ⟨"access-secret", "refresh-secret"⟩ "u1" 0) 5 =
      Except.error JwtVerifyError.badSignature ∧
    jwtVerify "refresh-secret"
        (generateAccessToken ⟨"access-secret", "refresh-secret"⟩ "u1" "a@b.c" 0) 5 =
      Except.error JwtVerifyError.badSignature) :=
  ⟨by decide, C5_secrets_independent ⟨"access-secret", "refresh-secret"⟩
    "u1" "a@b.c" 0 5 (by decide)⟩

/-- C6: verifying a password of length at least one against its own bcrypt
hash succeeds, and verifying any different password against that hash
fails. -/
theorem C6_verify_roundtrip (password wrong : String) (salt : Nat)
    (hlen : 1 ≤ password.length) (hw : wrong ≠ password) :
    verifyPassword password (hashPassword password salt) = true ∧
    verifyPassword wrong (hashPassword password salt) = false := by
  constructor
  · simp [verifyPassword, hashPassword, bcryptCompare, bcryptHashWith]
  · simp [verifyPassword, hashPassword, bcryptCompare, bcryptHashWith,
      BcryptHash.mk.injEq]
    exact hw

/-- C6 witness at concrete passwords. -/
theorem C6_verify_roundtrip_witness :
    1 ≤ ("a" : String).length ∧ ("b" : String) ≠ "a" ∧
    (verifyPassword "a" (hashPassword "a" 0) = true ∧
     verifyPassword "b" (hashPassword "a" 0) = false) :=
  ⟨by decide, by decide, C6_verify_roundtrip "a" "b" 0 (by decide) (by decide)⟩

/-- C7: token verification either succeeds with the decoded claims of
jwt.verify, or fails with the one uniform error value "Invalid token",
whatever the underlying failure reason was. -/
theorem C7_verifyToken_uniform (cfg : Config) (tok : JwtToken) (now : Nat) :
    (∃ p, verifyToken cfg tok now = Except.ok p ∧
      jwtVerify cfg.JWT_SECRET tok now = Except.ok p) ∨
    verifyToken cfg tok now = Except.error "Invalid token" := by
  cases h : jwtVerify cfg.JWT_SECRET tok now with
  | ok p => exact Or.inl ⟨p, by simp [verifyToken, h], rfl⟩
  | error e => exact Or.inr (by simp [verifyToken, h])

/-- C8 counterexample: the body posted by authService.register carries no
username field — its fields are name, email and password. -/
theorem C8_register_body_cex :
    "username" ∉ (registerRequestBody "alice" "alice@example.com"
      "Str0ngPass!").map Prod.fst ∧
    (registerRequestBody "alice" "alice@example.com" "Str0ngPass!").map Prod.fst ≠
      ["email", "username", "password"] := by
  decide

/-- C8 (amended): authService.register posts a body of exactly the fields
name, email and password to /auth/register, and resolves to the AuthUser
shape, whose fields are id, email and an optional name. -/
theorem C8_register_request_shape (userName email password : String) :
    (registerRequestBody userName email password).map Prod.fst =
      ["name", "email", "password"] ∧
    registerRequestPath = "/auth/register" ∧
    authUserFieldNames = ["id", "email", "name"] :=
  ⟨rfl, rfl, rfl⟩

/-- C10: logout always ends with the local session cleared — user none,
accessToken none, and nothing stored under the webide.auth key — whether
the POST to /auth/logout succeeds or throws. -/
theorem C10_logout_always_clears (s : AuthState) (r : Except ApiError Unit) :
    (logoutStep s r).user = none ∧ (logoutStep s r).accessToken = none ∧
    lsGet (logoutStep s r).storage AUTH_STORAGE_KEY = none := by
  cases r <;> simp [logoutStep, clearSession, lsGet_lsRemove]

/-- Concrete user for the 401 scenario of C3. -/
def cexUser : AuthUser := { id := "u1", email := "alice@example.com", name := none }

/-- Concrete frontend state holding a live stored session. -/
def cexState : AuthState :=
  { user := some cexUser
    accessToken := some "tok"
    isLoading := false
    storage := lsSet [] AUTH_STORAGE_KEY (persistAuthValue (some cexUser) (some "tok")) }

/-- C3 counterexample: a response with status 401 during the session
verification call does not clear the session — the user, the access token
and the stored webide.auth entry all survive unchanged, because the
frontend installs no response interceptor and no status-based handling. -/
theorem C3_no_clear_on_401_cex :
    (refreshSessionStep cexState (Except.error ⟨401⟩)).user = some cexUser ∧
    (refreshSessionStep cexState (Except.error ⟨401⟩)).accessToken = some "tok" ∧
    lsGet (refreshSessionStep cexState (Except.error ⟨401⟩)).storage AUTH_STORAGE_KEY =
      some (persistAuthValue (some cexUser) (some "tok")) :=
  ⟨rfl, rfl, rfl⟩

/-- C3 (amended): the frontend has no status-based 401 handling: any failed
API call — 401 included — leaves the user, access token and stored session
unchanged; the redirect to the login view comes only from ProtectedRoute
when no user is in context; and errors surface as inline messages (the
login page shows its fixed message for every failure) without touching the
stored session state. -/
theorem C3_no_automatic_401_handling (s : AuthState) (e : ApiError)
    (ps : LoginPageState) :
    (refreshSessionStep s (Except.error e)).user = s.user ∧
    (refreshSessionStep s (Except.error e)).accessToken = s.accessToken ∧
    (refreshSessionStep s (Except.error e)).storage = s.storage ∧
    protectedRoute false none = RouteOutcome.redirectToLogin ∧
    (loginPageSubmit ps (Except.error e)).auth.storage = ps.auth.storage ∧
    (loginPageSubmit ps (Except.error e)).errorMsg =
      some "Unable to sign in. Check your credentials and try again." := by
  refine ⟨?_, ?_, ?_, rfl, rfl, rfl⟩ <;>
    cases h : s.accessToken <;> simp [refreshSessionStep, h]

/-- persistAuth keeps the storage invariant. -/
theorem storedAuthOk_set (st : LocalStorage) (u : Option AuthUser) (t : Option String) :
    storedAuthOk (lsSet st AUTH_STORAGE_KEY (persistAuthValue u t)) :=
  Or.inr ⟨u, t, lsGet_lsSet st AUTH_STORAGE_KEY (persistAuthValue u t)⟩

/-- removeItem keeps the storage invariant. -/
theorem storedAuthOk_remove (st : LocalStorage) :
    storedAuthOk (lsRemove st AUTH_STORAGE_KEY) :=
  Or.inl (lsGet_lsRemove st AUTH_STORAGE_KEY)

/-- Every frontend auth operation keeps the storage invariant. -/
theorem runOp_storedAuthOk (s : AuthState) (op : AuthOp)
    (h : storedAuthOk s.storage) : storedAuthOk (runOp s op).storage := by
  cases op with
  | login r =>
    cases r with
    | ok d =>
      simpa [runOp, loginStep, persistAuthStep] using
        storedAuthOk_set s.storage (some d.user) (some d.accessToken)
    | error e => simpa [runOp, loginStep] using h
  | register r1 r2 =>
    cases r1 with
    | ok u =>
      cases r2 with
      | ok d =>
        simpa [runOp, registerStep, loginStep, persistAuthStep] using
          storedAuthOk_set s.storage (some d.user) (some d.accessToken)
      | error e => simpa [runOp, registerStep, loginStep] using h
    | error e => simpa [runOp, registerStep] using h
  | refreshSession r =>
    cases htok : s.accessToken with
    | none => simpa [runOp, refreshSessionStep, htok] using h
    | some tok =>
      cases r with
      | ok resp =>
        cases hv : resp.valid with
        | false => simpa [runOp, refreshSessionStep, htok, hv] using h
        | true =>
          cases hu : resp.user with
          | none => simpa [runOp, refreshSessionStep, htok, hv, hu] using h
          | some u =>
            simpa [runOp, refreshSessionStep, htok, hv, hu, persistAuthStep] using
              storedAuthOk_set s.storage (some u) (some tok)
      | error e => simpa [runOp, refreshSessionStep, htok] using h
  | logout r =>
    cases r <;> simpa [runOp, logoutStep, clearSession] using storedAuthOk_remove s.storage

/-- C9: after any sequence of frontend auth operations starting from a state
whose stored entry is absent or persistAuth-shaped, the webide.auth entry is
still absent or an object of exactly the user and accessToken fields — in
particular no refreshToken field is ever stored, whatever refresh tokens the
login responses carried. -/
theorem C9_frontend_never_persists_refresh (s0 : AuthState) (ops : List AuthOp)
    (h : storedAuthOk s0.storage) :
    storedAuthOk (runOps s0 ops).storage ∧
    "refreshToken" ∉ storedTopKeys (runOps s0 ops).storage ∧
    (∀ keyName ∈ storedTopKeys (runOps s0 ops).storage,
      keyName = "user" ∨ keyName = "accessToken") := by
  have hok : storedAuthOk (runOps s0 ops).storage := by
    induction ops generalizing s0 with
    | nil => exact h
    | cons op rest ih => exact ih (runOp s0 op) (runOp_storedAuthOk s0 op h)
  refine ⟨hok, ?_, ?_⟩ <;>
  · rcases hok with hnone | ⟨u, t, hsome⟩
    · simp [storedTopKeys, hnone]
    · simp [storedTopKeys, hsome, persistAuthValue, jsonTopKeys]

/-- Concrete initial state for the C9 witness: empty storage. -/
def c9State : AuthState :=
  { user := none, accessToken := none, isLoading := false, storage := [] }

/-- Concrete operation sequence for the C9 witness: a login whose response
does carry a refresh token, a failed verification, a logout. -/
def c9Ops : List AuthOp :=
  [AuthOp.login (Except.ok
      { user := { id := "u1", email := "alice@example.com", name := some "Alice" }
        accessToken := "acc-tok"
        refreshToken := some "refresh-raw"
        expiresIn := some 900 }),
   AuthOp.refreshSession (Except.error ⟨500⟩),
   AuthOp.logout (Except.ok ())]

/-- C9 witness: the invariant holds along the concrete run. -/
theorem C9_frontend_never_persists_refresh_witness :
    storedAuthOk c9State.storage ∧
    (storedAuthOk (runOps c9State c9Ops).storage ∧
     "refreshToken" ∉ storedTopKeys (runOps c9State c9Ops).storage ∧
     (∀ keyName ∈ storedTopKeys (runOps c9State c9Ops).storage,
       keyName = "user" ∨ keyName = "accessToken")) :=
  ⟨Or.inl rfl, C9_frontend_never_persists_refresh c9State c9Ops (Or.inl rfl)⟩

/-- No record of the store is both carrying the hash and unrevoked, so no
lookup finds an active record for it. -/
theorem findActive_eq_none (st : RefreshStore) (h : TokenHash) (now : Nat)
    (hall : ∀ r ∈ st.records, r.tokenHash ≠ h ∨ r.revokedAt ≠ none) :
    findActive st h now = none := by
  rw [findActive, List.find?_eq_none]
  intro r hr
  rcases hall r hr with hne | hrev
  · simp [hne]
  · rcases Option.ne_none_iff_exists'.mp hrev with ⟨x, hx⟩
    simp [recordActive, hx]

/-- Rotation fails closed when no active record carries the hash. -/
theorem rotate_eq_error_of_none (st : RefreshStore) (h : TokenHash) (now ttl : Nat)
    (hn : findActive st h now = none) :
    rotate st h now ttl = Except.error "Unauthorized" := by
  simp [rotate, hn]

/-- A matching active head record is what findActive returns. -/
theorem findActive_head (r : RefreshRecord) (rest : List RefreshRecord)
    (nid nraw : Nat) (h : TokenHash) (now : Nat)
    (hh : r.tokenHash = h) (hact : recordActive r now = true) :
    findActive ⟨r :: rest, nid, nraw⟩ h now = some r := by
  simp [findActive, List.find?, hh, hact]

/-- C1 (spec-modelled): a refresh token issued against a well-formed store
is single-use. Rotating with its hash succeeds and — in the one atomic
transition — revokes the issued record while persisting a fresh one: in the
resulting store the original hash has no active record at any time (so at
no point are old and new simultaneously active), every further rotation
presenting the original hash fails closed with Unauthorized, and the newly
persisted token is active. -/
theorem C1_rotation_single_use (st0 : RefreshStore) (uid : String)
    (now0 now1 ttl raw recId : Nat) (st1 : RefreshStore)
    (hwf : st0.WF) (hlive : now1 < now0 + ttl)
    (hissue : issueRefreshToken st0 uid now0 ttl = (raw, recId, st1)) :
    ∃ res, rotate st1 (TokenHash.hashOf raw) now1 ttl = Except.ok res ∧
      res.1.1 ≠ raw ∧
      (∀ t, findActive res.2 (TokenHash.hashOf raw) t = none) ∧
      (∀ t ttl2, rotate res.2 (TokenHash.hashOf raw) t ttl2 =
        Except.error "Unauthorized") ∧
      (0 < ttl → (findActive res.2 (TokenHash.hashOf res.1.1) now1).isSome = true) := by
  simp only [issueRefreshToken, persistRecord, Prod.mk.injEq] at hissue
  obtain ⟨hraw, hrec, hst⟩ := hissue
  subst hraw hrec hst
  have hrot : rotate
      (⟨{ id := st0.nextId, userId := uid, tokenHash := TokenHash.hashOf st0.nextRaw,
          expiresAt := now0 + ttl, revokedAt := none, createdAt := now0 } :: st0.records,
        st0.nextId + 1, st0.nextRaw + 1⟩ : RefreshStore)
      (TokenHash.hashOf st0.nextRaw) now1 ttl =
    Except.ok ((st0.nextRaw + 1, st0.nextId + 1),
      ⟨{ id := st0.nextId + 1, userId := uid,
         tokenHash := TokenHash.hashOf (st0.nextRaw + 1),
         expiresAt := now1 + ttl, revokedAt := none, createdAt := now1 } ::
       { id := st0.nextId, userId := uid, tokenHash := TokenHash.hashOf st0.nextRaw,
         expiresAt := now0 + ttl, revokedAt := some now1, createdAt := now0 } ::
       st0.records.map (fun r =>
         if r.id = st0.nextId then { r with revokedAt := some now1 } else r),
       st0.nextId + 2, st0.nextRaw + 2⟩) := by
    simp [rotate, findActive, List.find?, recordActive, hlive, revoke,
      issueRefreshToken, persistRecord]
  refine ⟨_, hrot, ?_, ?_, ?_, ?_⟩
  · show st0.nextRaw + 1 ≠ st0.nextRaw
    omega
  · intro t
    apply findActive_eq_none
    intro r hr
    simp only [List.mem_cons, List.mem_map] at hr
    rcases hr with rfl | rfl | ⟨r0, hr0, rfl⟩
    · left
      simp
    · right
      simp
    · by_cases hid : r0.id = st0.nextId
      · right
        rw [if_pos hid]
        simp
      · left
        rw [if_neg hid]
        cases hth : r0.tokenHash with
        | hashOf x =>
          have hx := hwf r0 hr0 x hth
          simp only [ne_eq, TokenHash.hashOf.injEq]
          omega
  · intro t ttl2
    apply rotate_eq_error_of_none
    apply findActive_eq_none
    intro r hr
    simp only [List.mem_cons, List.mem_map] at hr
    rcases hr with rfl | rfl | ⟨r0, hr0, rfl⟩
    · left
      simp
    · right
      simp
    · by_cases hid : r0.id = st0.nextId
      · right
        rw [if_pos hid]
        simp
      · left
        rw [if_neg hid]
        cases hth : r0.tokenHash with
        | hashOf x =>
          have hx := hwf r0 hr0 x hth
          simp only [ne_eq, TokenHash.hashOf.injEq]
          omega
  · intro httl
    rw [findActive_head _ _ _ _ _ _ rfl (by simp [recordActive]; omega)]
    rfl

/-- Empty store for the C1 witness. -/
def c1Store0 : RefreshStore := { records := [], nextId := 0, nextRaw := 0 }

/-- Store after issuing one refresh token for the C1 witness. -/
def c1Store1 : RefreshStore := (issueRefreshToken c1Store0 "alice" 0 100).2.2

/-- C1 witness: the round trip at a concrete store — issue at time 0 with
ttl 100, rotate at time 10, replay the original hash. -/
theorem C1_rotation_single_use_witness :
    c1Store0.WF ∧ (10 : Nat) < 0 + 100 ∧
    (∃ res, rotate c1Store1 (TokenHash.hashOf 0) 10 100 = Except.ok res ∧
      res.1.1 ≠ 0 ∧
      (∀ t, findActive res.2 (TokenHash.hashOf 0) t = none) ∧
      (∀ t ttl2, rotate res.2 (TokenHash.hashOf 0) t ttl2 =
        Except.error "Unauthorized") ∧
      (0 < 100 → (findActive res.2 (TokenHash.hashOf res.1.1) 10).isSome = true)) :=
  ⟨fun r hr => absurd hr (List.not_mem_nil r), by omega,
   C1_rotation_single_use c1Store0 "alice" 0 10 100 0 0 c1Store1
     (fun r hr => absurd hr (List.not_mem_nil r)) (by omega) rfl⟩

end WebIDE
